import Mathlib

set_option maxRecDepth 4000

/-!
Shallow embedding of the `backend-project-gdg` HTTP service, as implemented
in `src/index.ts` (Express application: CORS, body parsing and logging
middleware, route handlers for `/`, `/info`, `/db-test`, the Swagger routes
`/api-docs` and `/api-docs.json` from `src/config/swagger.ts`, a 404
fallback and a global error handler).

Process state that the handlers read (`process.env.NODE_ENV`, the clock,
`process.memoryUsage()`, `process.uptime()`, `process.version`,
`process.platform`) and the Prisma database client used by `/db-test` are
modelled as an explicit `World` record.  A request is a method/path pair
together with the outcome of the body-parsing middleware.  Responses are a
status code plus a JSON or HTML body.
-/

namespace Backend

/-- JSON values: the payloads handed to `res.json(...)` and the generated
OpenAPI document. -/
inductive Json where
  | str (s : String)
  | num (q : ℚ)
  | bool (b : Bool)
  | arr (elems : List Json)
  | obj (fields : List (String × Json))

/-- A JavaScript `Error` object, as seen by the global Express error
handler (`err: Error`): only its `message` is consulted. -/
structure JsError where
  message : String

/-- A value thrown inside the `/db-test` handler's `try` block.  JavaScript
can throw any value; the `catch` clause distinguishes `Error` instances
(whose `message` is echoed) from any other thrown value. -/
inductive JsThrow where
  | errorInstance (message : String)
  | nonError (payload : String)

/-- The Prisma client used by `/db-test`, modelled at its interface: the
outcomes of `prisma.$connect()`, `prisma.user.count()` and
`prisma.post.count()` for the current database state. -/
structure DbClient where
  connectR : Except JsThrow Unit
  userCountR : Except JsThrow Nat
  postCountR : Except JsThrow Nat

/-- The process state read by the handlers and the database collaborator. -/
structure World where
  /-- `process.env.NODE_ENV`: `none` when the variable is unset. -/
  nodeEnv : Option String
  /-- `process.version`. -/
  nodeVersion : String
  /-- `process.platform`. -/
  platform : String
  /-- `process.uptime()`, seconds. -/
  uptimeSec : ℚ
  /-- `process.memoryUsage().rss`, bytes. -/
  rssBytes : Nat
  /-- `process.memoryUsage().heapUsed`, bytes. -/
  heapUsedBytes : Nat
  /-- `Date.now()` at request time: milliseconds since the Unix epoch. -/
  nowMs : Nat
  /-- The Prisma client. -/
  db : DbClient

/-- An inbound HTTP request, after the body-parsing middleware ran:
`parseError` is `some e` when `express.json()` / `express.urlencoded()`
raised `e` on a malformed body, and `none` when the body parsed. -/
structure Req where
  method : String
  path : String
  parseError : Option JsError

/-- A response body: JSON (from `res.json`) or HTML (the Swagger UI). -/
inductive Body where
  | json (j : Json)
  | html (s : String)

/-- An HTTP response: status code and body. -/
structure HttpResp where
  status : Nat
  body : Body

/-! ### Decimal rendering

`natDec n` is the list of decimal digit characters of `n`, as produced by
JavaScript number-to-string conversion for non-negative integers (used by
the template literal in the `/info` handler). -/

/-- The decimal digit character of `n % 10`. -/
def dchar (n : Nat) : Char := Char.ofNat (48 + n % 10)

/-- Decimal digit characters of a natural number, most significant first. -/
def natDec (n : Nat) : List Char :=
  if n < 10 then [dchar n]
  else natDec (n / 10) ++ [dchar n]
decreasing_by omega

/-! ### The clock: `new Date().toISOString()`

Modelled from the ECMAScript specification of `Date.prototype.toISOString`
for times between the epoch and the year 10000: the UTC time is rendered as
`YYYY-MM-DDTHH:mm:ss.sssZ`.  The Gregorian conversion from days since the
epoch is expressed by layers (400-year era, century, 4-year block, year),
which is equivalent to the usual civil-from-days computation. -/

/-- Century within a 400-year era (0..3), from the day of era.
The era starts on March 1 of a year divisible by 400; its three first
centuries have 36524 days and the last has 36525. -/
def cenOf (doe : Nat) : Nat := min (doe / 36524) 3

/-- Day within the century. -/
def docOf (doe : Nat) : Nat := doe - 36524 * cenOf doe

/-- Four-year block within the century (0..24); the first 24 blocks of a
century have 1461 days, and its last block has 1460 days except in the
last century of the era. -/
def quadOf (doe : Nat) : Nat := min (docOf doe / 1461) 24

/-- Day within the four-year block. -/
def doqOf (doe : Nat) : Nat := docOf doe - 1461 * quadOf doe

/-- Year within the four-year block (0..3); March-based years have 365 days
except the last of a leap block, which has 366. -/
def yqOf (doe : Nat) : Nat := min (doqOf doe / 365) 3

/-- Day of the March-based year (0..365). -/
def doyOf (doe : Nat) : Nat := doqOf doe - 365 * yqOf doe

/-- March-based year within the era (0..400). -/
def yoeOf (doe : Nat) : Nat := 100 * cenOf doe + 4 * quadOf doe + yqOf doe

/-- Shifted month (0 = March .. 11 = February) from the day of year. -/
def mpOfDoy (doy : Nat) : Nat := (5 * doy + 2) / 153

/-- Day of month (1-based) from the day of year. -/
def dayOfDoy (doy : Nat) : Nat := doy - (153 * mpOfDoy doy + 2) / 5 + 1

/-- Calendar month (1 = January .. 12 = December) from the day of year. -/
def monthOfDoy (doy : Nat) : Nat :=
  if mpOfDoy doy < 10 then mpOfDoy doy + 3 else mpOfDoy doy - 9

/-- The 400-year era of the UTC time `ms` (milliseconds since the epoch),
counted from March 1 of year 0. -/
def eraOfMs (ms : Nat) : Nat := (ms / 86400000 + 719468) / 146097

/-- The day of era of the UTC time `ms`. -/
def doeOfMs (ms : Nat) : Nat := (ms / 86400000 + 719468) % 146097

/-- The UTC calendar month of `ms`. -/
def monthOfMs (ms : Nat) : Nat := monthOfDoy (doyOf (doeOfMs ms))

/-- The UTC day of month of `ms`. -/
def dayOfMs (ms : Nat) : Nat := dayOfDoy (doyOf (doeOfMs ms))

/-- The UTC calendar year of `ms` (January and February belong to the
year after their March-based year). -/
def yearOfMs (ms : Nat) : Nat :=
  eraOfMs ms * 400 + yoeOf (doeOfMs ms) +
    (if monthOfMs ms ≤ 2 then 1 else 0)

/-- Two-digit zero-padded decimal rendering. -/
def pad2 (n : Nat) : List Char := [dchar (n / 10), dchar n]

/-- Three-digit zero-padded decimal rendering. -/
def pad3 (n : Nat) : List Char := [dchar (n / 100), dchar (n / 10), dchar n]

/-- Four-digit zero-padded decimal rendering. -/
def pad4 (n : Nat) : List Char := [dchar (n / 1000), dchar (n / 100), dchar (n / 10), dchar n]

/-- `new Date(ms).toISOString()` for `ms` milliseconds since the epoch
(faithful for dates up to the year 9999). -/
def toISOString (ms : Nat) : String :=
  String.mk (pad4 (yearOfMs ms) ++ '-' :: pad2 (monthOfMs ms) ++ '-' :: pad2 (dayOfMs ms) ++
    'T' :: pad2 (ms % 86400000 / 3600000) ++ ':' :: pad2 (ms % 86400000 / 60000 % 60) ++
    ':' :: pad2 (ms % 86400000 / 1000 % 60) ++ '.' :: pad3 (ms % 86400000 % 1000) ++ ['Z'])

/-! ### ISO 8601 validity -/

/-- Gregorian leap year. -/
def isLeap (y : Nat) : Bool := (y % 4 == 0 && y % 100 != 0) || y % 400 == 0

/-- Number of days of month `m` (1..12) of year `y`. -/
def daysInMonth (y m : Nat) : Nat :=
  if m = 2 then (if isLeap y then 29 else 28)
  else if m = 4 ∨ m = 6 ∨ m = 9 ∨ m = 11 then 30
  else 31

/-- Numeric value of a decimal digit character. -/
def digitVal (c : Char) : Nat := c.toNat - 48

/-- Character-list form of the ISO 8601 UTC date-time check: the exact
shape `YYYY-MM-DDTHH:mm:ss.sssZ`, with the month, the day (against the
month length of the denoted year), the hour, the minute and the second in
range. -/
def isoCharsOk (l : List Char) : Bool :=
  match l with
  | [y1, y2, y3, y4, a1, mo1, mo2, a2, d1, d2, t1, h1, h2, c1, n1, n2,
     c2, e1, e2, p1, f1, f2, f3, z1] =>
    [y1, y2, y3, y4, mo1, mo2, d1, d2, h1, h2, n1, n2, e1, e2, f1, f2, f3].all Char.isDigit
    && a1 == '-' && a2 == '-' && t1 == 'T' && c1 == ':' && c2 == ':'
    && p1 == '.' && z1 == 'Z'
    && (let y := 1000 * digitVal y1 + 100 * digitVal y2 + 10 * digitVal y3 + digitVal y4
        let mo := 10 * digitVal mo1 + digitVal mo2
        let da := 10 * digitVal d1 + digitVal d2
        decide (1 ≤ mo) && decide (mo ≤ 12) && decide (1 ≤ da)
        && decide (da ≤ daysInMonth y mo)
        && decide (10 * digitVal h1 + digitVal h2 < 24)
        && decide (10 * digitVal n1 + digitVal n2 < 60)
        && decide (10 * digitVal e1 + digitVal e2 < 60))
  | _ => false

/-- Checks that a string is a syntactically valid ISO 8601 UTC date-time of
the form `YYYY-MM-DDTHH:mm:ss.sssZ`. -/
def isValidISO8601Z (s : String) : Bool := isoCharsOk s.data

/-! ### Bounded range checking (proof infrastructure) -/

/-- Fuel-driven check that `f i = true` for every `lo ≤ i < hi`, by binary
splitting (structurally recursive, so it evaluates by reduction).  Returns
`false` when the fuel is insufficient. -/
def allRangeF : Nat → (Nat → Bool) → Nat → Nat → Bool
  | 0, _, _, _ => false
  | fuel + 1, f, lo, hi =>
    if hi ≤ lo then true
    else if hi = lo + 1 then f lo
    else allRangeF fuel f lo ((lo + hi) / 2) && allRangeF fuel f ((lo + hi) / 2) hi

/-- The per-day-of-year checks on the month/day conversion used in the
ISO 8601 validity proof. -/
def mdOk (doy : Nat) : Bool :=
  let mo := monthOfDoy doy
  let da := dayOfDoy doy
  decide (1 ≤ mo) && decide (mo ≤ 12) && decide (1 ≤ da) && decide (da ≤ 31)
  && decide ((mo = 4 ∨ mo = 6 ∨ mo = 9 ∨ mo = 11) → da ≤ 30)
  && decide (mo = 2 → da ≤ 29)
  && decide (mo = 2 ∧ da = 29 → doy = 365)
  && decide (mo ≤ 2 → 306 ≤ doy)

/-! ### The handlers (src/index.ts) -/

/-- `process.env.NODE_ENV || 'development'`: JavaScript `||` replaces both
a missing and an empty (falsy) value by the default. -/
def envOf (w : World) : String :=
  match w.nodeEnv with
  | none => "development"
  | some s => if s = "" then "development" else s

/-- The body built by the `GET /` handler. -/
def healthBody (w : World) : Json :=
  .obj [("message", .str "Ready"),
        ("timestamp", .str (toISOString w.nowMs)),
        ("environment", .str (envOf w)),
        ("version", .str "1.0.0")]

/-- `Math.round(bytes / 1024 / 1024)`: the byte count divided by 2^20,
rounded half away from zero (exact, since the two divisions by 1024 are
exact in binary floating point for realistic byte counts). -/
def roundMB (bytes : Nat) : Nat := (bytes + 524288) / 1048576

/-- The string interpolation in the `/info` handler:
the rounded megabyte count followed by `" MB"`. -/
def mbString (bytes : Nat) : String :=
  String.mk (natDec (roundMB bytes)) ++ " MB"

/-- The body built by the `GET /info` handler. -/
def infoBody (w : World) : Json :=
  .obj [("appName", .str "Backend Development Project API"),
        ("nodeVersion", .str w.nodeVersion),
        ("platform", .str w.platform),
        ("uptime", .num w.uptimeSec),
        ("memoryUsage", .obj [("rss", .str (mbString w.rssBytes)),
                              ("heapUsed", .str (mbString w.heapUsedBytes))])]

/-- The sequence of awaited database calls inside the `try` block of the
`/db-test` handler: `prisma.$connect()`, then `prisma.user.count()`, then
`prisma.post.count()`; the first raised value aborts the rest. -/
def dbRun (db : DbClient) : Except JsThrow (Nat × Nat) :=
  match db.connectR with
  | .error e => .error e
  | .ok _ =>
    match db.userCountR with
    | .error e => .error e
    | .ok u =>
      match db.postCountR with
      | .error e => .error e
      | .ok p => .ok (u, p)

/-- `error instanceof Error ? error.message : 'Unknown error'`. -/
def dbErrMessage : JsThrow → String
  | .errorInstance msg => msg
  | .nonError _ => "Unknown error"

/-- The `GET /db-test` handler: its `try` block on success, its `catch`
clause on the first database failure. -/
def dbTestResp (w : World) : HttpResp :=
  match dbRun w.db with
  | .ok (u, p) =>
    ⟨200, .json (.obj [("message", .str "Database connection successful"),
                       ("database", .str "Supabase PostgreSQL"),
                       ("userCount", .num u),
                       ("postCount", .num p),
                       ("timestamp", .str (toISOString w.nowMs))])⟩
  | .error e =>
    ⟨500, .json (.obj [("error", .str "Database connection failed"),
                       ("message", .str (dbErrMessage e))])⟩

/-! ### The OpenAPI document (src/config/swagger.ts)

`swaggerSpec` is the document produced by the external generator
`swagger-jsdoc` from the static `swaggerOptions` definition and the three
`@swagger` JSDoc annotations in `src/index.ts` (which document `GET /`,
`GET /info` and `GET /db-test`). -/

/-- The generated OpenAPI specification document. -/
def swaggerSpec : Json :=
  .obj [("openapi", .str "3.0.0"),
        ("info", .obj [("title", .str "Backend Development API project"),
                       ("version", .str "1.0.0"),
                       ("description", .str "REST API documentation for backend develoment project"),
                       ("contact", .obj [("name", .str "M. Rafi ash shiddiqie"),
                                         ("email", .str "m.raffi1808@gmail,com")]),
                       ("license", .obj [("name", .str "MIT"),
                                         ("url", .str "https://opensource.org/licenses/MIT")])]),
        ("servers", .arr [.obj [("url", .str "http://localhost:3000"),
                                ("description", .str "Development server")],
                          .obj [("url", .str "https://your-production-url.com"),
                                ("description", .str "Production server")]]),
        ("components", .obj [("securitySchemes",
          .obj [("bearerAuth", .obj [("type", .str "http"),
                                     ("scheme", .str "bearer"),
                                     ("bearerFormat", .str "JWT")])])]),
        ("security", .arr [.obj [("bearerAuth", .arr [])]]),
        ("paths", .obj [("/", .obj [("get", .obj [("summary", .str "Health check endpoint"),
                                                  ("tags", .arr [.str "Health"])])]),
                        ("/info", .obj [("get", .obj [("summary", .str "Get system information"),
                                                      ("tags", .arr [.str "Health"])])]),
                        ("/db-test", .obj [("get", .obj [("summary", .str "Test database connection"),
                                                         ("tags", .arr [.str "Health"])])])])]

/-- The interactive Swagger UI page served under `/api-docs`
(HTML rendered by `swagger-ui-express`, opaque to this model). -/
def swaggerUiResp : HttpResp := ⟨200, .html "swagger-ui"⟩

/-! ### Routing (src/index.ts) -/

/-- Route dispatch in registration order: the `/api-docs` mount and the
`/api-docs.json` route registered by `setupSwagger`, then `GET /`,
`GET /info`, `GET /db-test`, then the 404 fallback.  A `use` mount matches
the mount path itself and any path below it. -/
def routeReq (w : World) (req : Req) : HttpResp :=
  if req.path = "/api-docs" ∨ "/api-docs/".data.isPrefixOf req.path.data = true then
    swaggerUiResp
  else if req.method = "GET" ∧ req.path = "/api-docs.json" then
    ⟨200, .json swaggerSpec⟩
  else if req.method = "GET" ∧ req.path = "/" then
    ⟨200, .json (healthBody w)⟩
  else if req.method = "GET" ∧ req.path = "/info" then
    ⟨200, .json (infoBody w)⟩
  else if req.method = "GET" ∧ req.path = "/db-test" then
    dbTestResp w
  else
    ⟨404, .json (.obj [("error", .str "Route not found"),
                       ("path", .str req.path),
                       ("method", .str req.method)])⟩

/-- The global Express error handler. -/
def errorHandler (err : JsError) : HttpResp :=
  ⟨500, .json (.obj [("error", .str "Internal Server Error"),
                     ("message", .str err.message)])⟩

/-- The whole application: a body-parse failure raised by the middleware
skips dispatch and lands in the global error handler; otherwise the
request is dispatched to the routes. -/
def app (w : World) (req : Req) : HttpResp :=
  match req.parseError with
  | some e => errorHandler e
  | none => routeReq w req

/-- The (method, path) pairs matched by some declared route. -/
def matchedRoute (req : Req) : Prop :=
  (req.path = "/api-docs" ∨ "/api-docs/".data.isPrefixOf req.path.data = true) ∨
  (req.method = "GET" ∧
    (req.path = "/api-docs.json" ∨ req.path = "/" ∨ req.path = "/info" ∨
     req.path = "/db-test"))

instance (req : Req) : Decidable (matchedRoute req) := by
  unfold matchedRoute; infer_instance

/-! ### Observers used to state the claims -/

/-- Field lookup in a JSON object. -/
def jsonField (j : Json) (k : String) : Option Json :=
  match j with
  | .obj fs => fs.lookup k
  | _ => none

/-- Top-level field lookup in a JSON response body. -/
def respField (r : HttpResp) (k : String) : Option Json :=
  match r.body with
  | .json j => jsonField j k
  | .html _ => none

/-- The `error` tag of a JSON response body, when it is a string. -/
def errTag (r : HttpResp) : Option String :=
  match respField r "error" with
  | some (.str s) => some s
  | _ => none

/-- All values of top-level `timestamp` fields of a JSON response body. -/
def timestampsOf (r : HttpResp) : List Json :=
  match r.body with
  | .json (.obj fs) => (fs.filter (fun p => p.1 == "timestamp")).map (fun p => p.2)
  | _ => []

/-- Removes the volatile top-level fields (`timestamp`, `uptime`) of a
JSON value. -/
def scrubTop : Json → Json
  | .obj fs => .obj (fs.filter (fun p => p.1 != "timestamp" && p.1 != "uptime"))
  | j => j

/-- A response with its volatile top-level body fields removed. -/
def scrubResp (r : HttpResp) : HttpResp :=
  ⟨r.status, match r.body with
             | .json j => .json (scrubTop j)
             | b => b⟩

/-- Statuses and body shapes agree: 200 carries a success body (no `error`
tag), 404 carries the not-found error shape, 500 carries one of the two
internal-error shapes. -/
def statusMatches (r : HttpResp) : Prop :=
  (r.status = 200 ∧ errTag r = none) ∨
  (r.status = 404 ∧ errTag r = some "Route not found") ∨
  (r.status = 500 ∧ (errTag r = some "Internal Server Error" ∨
                     errTag r = some "Database connection failed"))

/-- The names of the documented paths of an OpenAPI document. -/
def specPaths (j : Json) : List String :=
  match jsonField j "paths" with
  | some (.obj fs) => fs.map (fun p => p.1)
  | _ => []

/-! ### Concrete instances used by the witnesses -/

/-- A concrete healthy world. -/
def w0 : World :=
  { nodeEnv := some "production"
    nodeVersion := "v20.11.0"
    platform := "linux"
    uptimeSec := 42
    rssBytes := 52428800
    heapUsedBytes := 10485760
    nowMs := 1700000000000
    db := { connectR := .ok (), userCountR := .ok 3, postCountR := .ok 5 } }

/-- A concrete world whose database connection attempt throws an `Error`
with an empty message. -/
def wEmptyErr : World :=
  { w0 with db := { connectR := .error (.errorInstance ""),
                    userCountR := .ok 3, postCountR := .ok 5 } }

/-- A concrete world in which `NODE_ENV` is set to the empty string. -/
def wEmptyEnv : World := { w0 with nodeEnv := some "" }

/-- A concrete world whose database connection attempt throws a value that
is not an `Error` instance. -/
def wNonErr : World :=
  { w0 with db := { connectR := .error (.nonError "weird throw"),
                    userCountR := .ok 3, postCountR := .ok 5 } }

/-- A well-formed `GET /` request. -/
def reqRoot : Req := ⟨"GET", "/", none⟩

/-- A well-formed `GET /db-test` request. -/
def reqDb : Req := ⟨"GET", "/db-test", none⟩

/-- A well-formed `GET /info` request. -/
def reqInfo : Req := ⟨"GET", "/info", none⟩

/-- A well-formed `GET /api-docs.json` request. -/
def reqDocs : Req := ⟨"GET", "/api-docs.json", none⟩

/-- A request matching no declared route. -/
def reqMiss : Req := ⟨"POST", "/users", none⟩

/-- A request whose JSON body failed to parse. -/
def reqBadBody : Req := ⟨"POST", "/users", some ⟨"Unexpected token < in JSON at position 0"⟩⟩

/-- Nested lookup under the `memoryUsage` field of a response body. -/
def memField (r : HttpResp) (k : String) : Option Json :=
  match respField r "memoryUsage" with
  | some j => jsonField j k
  | none => none

/-! ## Infrastructure lemmas -/

theorem allRangeF_sound : ∀ fuel f lo hi, allRangeF fuel f lo hi = true →
    ∀ i, lo ≤ i → i < hi → f i = true := by
  intro fuel
  induction fuel with
  | zero => intro f lo hi h; simp [allRangeF] at h
  | succ n ih =>
    intro f lo hi h i h1 h2
    simp only [allRangeF] at h
    by_cases hle : hi ≤ lo
    · omega
    · by_cases heq : hi = lo + 1
      · rw [if_neg hle, if_pos heq] at h
        have hi_eq : i = lo := by omega
        rw [hi_eq]; exact h
      · rw [if_neg hle, if_neg heq, Bool.and_eq_true] at h
        by_cases hc : i < (lo + hi) / 2
        · exact ih f lo ((lo + hi) / 2) h.1 i h1 hc
        · exact ih f ((lo + hi) / 2) hi h.2 i (by omega) h2

theorem mdOk_eval : allRangeF 10 mdOk 0 366 = true := by decide

theorem mdOk_lt (doy : Nat) (h : doy < 366) : mdOk doy = true :=
  allRangeF_sound 10 mdOk 0 366 mdOk_eval doy (Nat.zero_le doy) h

theorem mdFacts (doy : Nat) (h : doy < 366) :
    1 ≤ monthOfDoy doy ∧ monthOfDoy doy ≤ 12 ∧
    1 ≤ dayOfDoy doy ∧ dayOfDoy doy ≤ 31 ∧
    ((monthOfDoy doy = 4 ∨ monthOfDoy doy = 6 ∨ monthOfDoy doy = 9 ∨ monthOfDoy doy = 11) →
      dayOfDoy doy ≤ 30) ∧
    (monthOfDoy doy = 2 → dayOfDoy doy ≤ 29) ∧
    (monthOfDoy doy = 2 ∧ dayOfDoy doy = 29 → doy = 365) ∧
    (monthOfDoy doy ≤ 2 → 306 ≤ doy) := by
  have hm := mdOk_lt doy h
  simp only [mdOk, Bool.and_eq_true, decide_eq_true_eq] at hm
  tauto

theorem civil_bounds (doe : Nat) (h : doe < 146097) :
    doyOf doe ≤ 365 ∧ yoeOf doe ≤ 399 ∧
    (doyOf doe = 365 → yqOf doe = 3 ∧ (quadOf doe < 24 ∨ cenOf doe = 3)) := by
  unfold doyOf yoeOf yqOf doqOf quadOf docOf cenOf
  omega

theorem leap_of_doy365 (era doe : Nat) (h : doe < 146097) (h365 : doyOf doe = 365) :
    isLeap (era * 400 + yoeOf doe + 1) = true := by
  unfold isLeap
  simp only [Bool.or_eq_true, Bool.and_eq_true, beq_iff_eq, bne_iff_ne]
  unfold yoeOf doyOf yqOf doqOf quadOf docOf cenOf at *
  omega

theorem doeOfMs_lt (ms : Nat) : doeOfMs ms < 146097 :=
  Nat.mod_lt _ (by norm_num)

theorem yearOfMs_le (ms : Nat) (h : ms < 253402300800000) : yearOfMs ms ≤ 9999 := by
  have hdoe : doeOfMs ms < 146097 := doeOfMs_lt ms
  obtain ⟨hdoy, hyoe, -⟩ := civil_bounds (doeOfMs ms) hdoe
  obtain ⟨-, -, -, -, -, -, -, h306⟩ := mdFacts (doyOf (doeOfMs ms)) (by omega)
  unfold yearOfMs monthOfMs
  by_cases hm : monthOfDoy (doyOf (doeOfMs ms)) ≤ 2
  · have hd := h306 hm
    rw [if_pos hm]
    unfold eraOfMs doeOfMs at *
    unfold yoeOf doyOf yqOf doqOf quadOf docOf cenOf at *
    omega
  · rw [if_neg hm]
    unfold eraOfMs doeOfMs at *
    omega

theorem digit_facts (k : Nat) (hk : k < 10) :
    (Char.ofNat (48 + k)).isDigit = true ∧ (Char.ofNat (48 + k)).toNat = 48 + k := by
  interval_cases k <;> exact ⟨by decide, by decide⟩

theorem dchar_isDigit (n : Nat) : (dchar n).isDigit = true := by
  unfold dchar
  exact (digit_facts (n % 10) (Nat.mod_lt n (by norm_num))).1

theorem digitVal_dchar (n : Nat) : digitVal (dchar n) = n % 10 := by
  unfold dchar digitVal
  rw [(digit_facts (n % 10) (Nat.mod_lt n (by norm_num))).2]
  omega

theorem day_le_daysInMonth (era doe : Nat) (hdoe : doe < 146097) :
    dayOfDoy (doyOf doe) ≤
      daysInMonth (era * 400 + yoeOf doe + (if monthOfDoy (doyOf doe) ≤ 2 then 1 else 0))
        (monthOfDoy (doyOf doe)) := by
  obtain ⟨hdoy, hyoe, h365c⟩ := civil_bounds doe hdoe
  obtain ⟨m1, m2, d1, d31, d30, d29le, d29eq, h306⟩ := mdFacts (doyOf doe) (by omega)
  by_cases h2 : monthOfDoy (doyOf doe) = 2
  · rw [h2, if_pos (by omega)]
    show dayOfDoy (doyOf doe) ≤ if isLeap (era * 400 + yoeOf doe + 1) then 29 else 28
    by_cases h29 : dayOfDoy (doyOf doe) = 29
    · rw [leap_of_doy365 era doe hdoe (d29eq ⟨h2, h29⟩), if_pos rfl]
      omega
    · have hle28 : dayOfDoy (doyOf doe) ≤ 28 := by have := d29le h2; omega
      split <;> omega
  · unfold daysInMonth
    rw [if_neg h2]
    by_cases h4 : monthOfDoy (doyOf doe) = 4 ∨ monthOfDoy (doyOf doe) = 6 ∨
        monthOfDoy (doyOf doe) = 9 ∨ monthOfDoy (doyOf doe) = 11
    · rw [if_pos h4]; exact d30 h4
    · rw [if_neg h4]; exact d31

theorem isoCharsOk_render (y mo da hh mi ss f : Nat)
    (hy : y ≤ 9999) (hmo1 : 1 ≤ mo) (hmo2 : mo ≤ 12)
    (hd1 : 1 ≤ da) (hd2 : da ≤ daysInMonth y mo)
    (hhh : hh < 24) (hmi : mi < 60) (hss : ss < 60) :
    isoCharsOk (pad4 y ++ '-' :: pad2 mo ++ '-' :: pad2 da ++
      'T' :: pad2 hh ++ ':' :: pad2 mi ++ ':' :: pad2 ss ++ '.' :: pad3 f ++ ['Z']) = true := by
  have hdim31 : daysInMonth y mo ≤ 31 := by
    unfold daysInMonth
    split
    · split <;> omega
    · split <;> omega
  have hda31 : da ≤ 31 := le_trans hd2 hdim31
  simp only [pad4, pad3, pad2, List.cons_append, List.nil_append, isoCharsOk,
    List.all_cons, List.all_nil, Bool.and_eq_true, beq_self_eq_true, dchar_isDigit,
    decide_eq_true_eq, digitVal_dchar, and_true, true_and]
  have hyv : 1000 * (y / 1000 % 10) + 100 * (y / 100 % 10) + 10 * (y / 10 % 10) + y % 10 = y := by
    omega
  have hmov : 10 * (mo / 10 % 10) + mo % 10 = mo := by omega
  have hdav : 10 * (da / 10 % 10) + da % 10 = da := by omega
  rw [hyv, hmov, hdav]
  generalize hD : daysInMonth y mo = D at hd2 ⊢
  omega

theorem monthOfMs_bounds (ms : Nat) :
    1 ≤ monthOfMs ms ∧ monthOfMs ms ≤ 12 ∧ 1 ≤ dayOfMs ms := by
  have hdoe := doeOfMs_lt ms
  obtain ⟨hdoy, -, -⟩ := civil_bounds (doeOfMs ms) hdoe
  obtain ⟨m1, m2, d1, -⟩ := mdFacts (doyOf (doeOfMs ms)) (by omega)
  exact ⟨m1, m2, d1⟩

theorem toISOString_valid (ms : Nat) (h : ms < 253402300800000) :
    isValidISO8601Z (toISOString ms) = true := by
  obtain ⟨hm1, hm2, hd1⟩ := monthOfMs_bounds ms
  show isoCharsOk (toISOString ms).data = true
  unfold toISOString
  show isoCharsOk (pad4 (yearOfMs ms) ++ '-' :: pad2 (monthOfMs ms) ++ '-' :: pad2 (dayOfMs ms) ++
    'T' :: pad2 (ms % 86400000 / 3600000) ++ ':' :: pad2 (ms % 86400000 / 60000 % 60) ++
    ':' :: pad2 (ms % 86400000 / 1000 % 60) ++ '.' :: pad3 (ms % 86400000 % 1000) ++ ['Z']) = true
  apply isoCharsOk_render
  · exact yearOfMs_le ms h
  · exact hm1
  · exact hm2
  · exact hd1
  · exact day_le_daysInMonth (eraOfMs ms) (doeOfMs ms) (doeOfMs_lt ms)
  · omega
  · omega
  · omega

theorem natDec_digits (n : Nat) : ∀ c ∈ natDec n, c.isDigit = true := by
  induction n using Nat.strong_induction_on with
  | _ n ih =>
    rw [natDec]
    split
    · intro c hc
      rw [List.mem_singleton] at hc
      rw [hc]; exact dchar_isDigit n
    · intro c hc
      rw [List.mem_append] at hc
      rcases hc with hc | hc
      · exact ih (n / 10) (by omega) c hc
      · rw [List.mem_singleton] at hc
        rw [hc]; exact dchar_isDigit n

theorem natDec_ne_nil (n : Nat) : natDec n ≠ [] := by
  rw [natDec]
  split
  · simp
  · simp

/-- The scrubbed form of the health response. -/
theorem scrub_health (w : World) :
    scrubResp ⟨200, Body.json (healthBody w)⟩ =
      ⟨200, .json (.obj [("message", .str "Ready"), ("environment", .str (envOf w)),
        ("version", .str "1.0.0")])⟩ := rfl

/-- The scrubbed form of the info response. -/
theorem scrub_info (w : World) :
    scrubResp ⟨200, Body.json (infoBody w)⟩ =
      ⟨200, .json (.obj [("appName", .str "Backend Development Project API"),
        ("nodeVersion", .str w.nodeVersion), ("platform", .str w.platform),
        ("memoryUsage", .obj [("rss", .str (mbString w.rssBytes)),
                              ("heapUsed", .str (mbString w.heapUsedBytes))])])⟩ := rfl

/-- The scrubbed form of the db-test response on success. -/
theorem scrub_db_ok (w : World) (a b : Nat) (h : dbRun w.db = .ok (a, b)) :
    scrubResp (dbTestResp w) =
      ⟨200, .json (.obj [("message", .str "Database connection successful"),
        ("database", .str "Supabase PostgreSQL"),
        ("userCount", .num a), ("postCount", .num b)])⟩ := by
  unfold dbTestResp
  rw [h]
  rfl

/-- The scrubbed form of the db-test response on failure. -/
theorem scrub_db_err (w : World) (e : JsThrow) (h : dbRun w.db = .error e) :
    scrubResp (dbTestResp w) =
      ⟨500, .json (.obj [("error", .str "Database connection failed"),
        ("message", .str (dbErrMessage e))])⟩ := by
  unfold dbTestResp
  rw [h]
  rfl

/-! ## The claims -/

/-- C1: every request whose (method, path) pair matches no declared route
(and whose body parses) receives status 404 with the JSON body
`{error: "Route not found", path, method}`, echoing the requested path and
method verbatim. -/
theorem c1_unmatched_404 (w : World) (req : Req)
    (hpe : req.parseError = none) (hnm : ¬ matchedRoute req) :
    app w req = ⟨404, .json (.obj [("error", .str "Route not found"),
      ("path", .str req.path), ("method", .str req.method)])⟩ := by
  obtain ⟨m, p, pe⟩ := req
  subst hpe
  show routeReq w ⟨m, p, none⟩ = _
  unfold matchedRoute at hnm
  have hc1 : ¬(m = "GET" ∧ p = "/api-docs.json") :=
    fun hh => hnm (Or.inr ⟨hh.1, Or.inl hh.2⟩)
  have hc2 : ¬(m = "GET" ∧ p = "/") :=
    fun hh => hnm (Or.inr ⟨hh.1, Or.inr (Or.inl hh.2)⟩)
  have hc3 : ¬(m = "GET" ∧ p = "/info") :=
    fun hh => hnm (Or.inr ⟨hh.1, Or.inr (Or.inr (Or.inl hh.2))⟩)
  have hc4 : ¬(m = "GET" ∧ p = "/db-test") :=
    fun hh => hnm (Or.inr ⟨hh.1, Or.inr (Or.inr (Or.inr hh.2))⟩)
  have hc0 : ¬(p = "/api-docs" ∨ "/api-docs/".data.isPrefixOf p.data = true) :=
    fun hh => hnm (Or.inl hh)
  unfold routeReq
  rw [if_neg hc0, if_neg hc1, if_neg hc2, if_neg hc3, if_neg hc4]

theorem c1_unmatched_404_witness :
    reqMiss.parseError = none ∧ ¬ matchedRoute reqMiss ∧
    app w0 reqMiss = ⟨404, .json (.obj [("error", .str "Route not found"),
      ("path", .str "/users"), ("method", .str "POST")])⟩ :=
  ⟨rfl, by decide, c1_unmatched_404 w0 reqMiss rfl (by decide)⟩

/-- C2, counterexample: with `NODE_ENV` set to the empty string, `GET /`
answers with an `environment` field equal to `"development"`, not to the
value of `NODE_ENV` echoed verbatim (JavaScript `||` treats the empty
string as absent). -/
theorem c2_health_env_counterexample :
    wEmptyEnv.nodeEnv = some "" ∧
    respField (app wEmptyEnv reqRoot) "environment" = some (.str "development") ∧
    ("development" : String) ≠ "" :=
  ⟨rfl, rfl, by decide⟩

/-- C2, amended: `GET /` (with a parsable body) answers 200 with the health
body; the `environment` field echoes `NODE_ENV` verbatim whenever it is set
and non-empty, and falls back to `"development"` when `NODE_ENV` is unset
or empty; the `timestamp` field is the ISO 8601 rendering of the request
time and is a valid ISO 8601 date-time. -/
theorem c2_health_ok (w : World) (req : Req)
    (hm : req.method = "GET") (hp : req.path = "/") (hpe : req.parseError = none)
    (hms : w.nowMs < 253402300800000) :
    app w req = ⟨200, .json (healthBody w)⟩ ∧
    (∀ s, w.nodeEnv = some s → s ≠ "" → envOf w = s) ∧
    ((w.nodeEnv = none ∨ w.nodeEnv = some "") → envOf w = "development") ∧
    respField (app w req) "environment" = some (.str (envOf w)) ∧
    respField (app w req) "timestamp" = some (.str (toISOString w.nowMs)) ∧
    isValidISO8601Z (toISOString w.nowMs) = true := by
  obtain ⟨m, p, pe⟩ := req
  subst hm; subst hp; subst hpe
  refine ⟨rfl, ?_, ?_, rfl, rfl, toISOString_valid _ hms⟩
  · intro s hs hne
    unfold envOf
    rw [hs]
    show (if s = "" then "development" else s) = s
    rw [if_neg hne]
  · intro hcase
    unfold envOf
    rcases hcase with hc | hc
    · rw [hc]
    · rw [hc]
      rfl

theorem c2_health_ok_witness :
    reqRoot.method = "GET" ∧ reqRoot.path = "/" ∧ reqRoot.parseError = none ∧
    w0.nowMs < 253402300800000 ∧
    (app w0 reqRoot = ⟨200, .json (healthBody w0)⟩ ∧
     (∀ s, w0.nodeEnv = some s → s ≠ "" → envOf w0 = s) ∧
     ((w0.nodeEnv = none ∨ w0.nodeEnv = some "") → envOf w0 = "development") ∧
     respField (app w0 reqRoot) "environment" = some (.str (envOf w0)) ∧
     respField (app w0 reqRoot) "timestamp" = some (.str (toISOString w0.nowMs)) ∧
     isValidISO8601Z (toISOString w0.nowMs) = true) :=
  ⟨rfl, rfl, rfl, by decide,
   c2_health_ok w0 reqRoot rfl rfl rfl (by decide)⟩

/-- C3: when the connection attempt and both count queries succeed and the
database holds `n` users and `m` posts, `GET /db-test` answers 200 with
`{message: "Database connection successful", database: "Supabase
PostgreSQL", userCount: n, postCount: m, timestamp}`. -/
theorem c3_dbtest_success (w : World) (req : Req) (n m : Nat)
    (hm : req.method = "GET") (hp : req.path = "/db-test") (hpe : req.parseError = none)
    (hc : w.db.connectR = .ok ()) (hu : w.db.userCountR = .ok n)
    (hq : w.db.postCountR = .ok m) :
    app w req = ⟨200, .json (.obj [("message", .str "Database connection successful"),
      ("database", .str "Supabase PostgreSQL"),
      ("userCount", .num n), ("postCount", .num m),
      ("timestamp", .str (toISOString w.nowMs))])⟩ := by
  obtain ⟨mt, p, pe⟩ := req
  subst hm; subst hp; subst hpe
  show dbTestResp w = _
  unfold dbTestResp dbRun
  rw [hc, hu, hq]

theorem c3_dbtest_success_witness :
    reqDb.method = "GET" ∧ reqDb.path = "/db-test" ∧ reqDb.parseError = none ∧
    w0.db.connectR = .ok () ∧ w0.db.userCountR = .ok 3 ∧ w0.db.postCountR = .ok 5 ∧
    app w0 reqDb = ⟨200, .json (.obj [("message", .str "Database connection successful"),
      ("database", .str "Supabase PostgreSQL"),
      ("userCount", .num ((3 : ℕ) : ℚ)), ("postCount", .num ((5 : ℕ) : ℚ)),
      ("timestamp", .str (toISOString w0.nowMs))])⟩ :=
  ⟨rfl, rfl, rfl, rfl, rfl, rfl,
   c3_dbtest_success w0 reqDb 3 5 rfl rfl rfl rfl rfl rfl⟩

/-- C4, counterexample: when the connection attempt throws an `Error` whose
message is empty, `GET /db-test` answers 500 with an empty `message`
field, so the response's `message` is not always non-empty. -/
theorem c4_dbtest_failure_counterexample :
    wEmptyErr.db.connectR = .error (.errorInstance "") ∧
    (app wEmptyErr reqDb).status = 500 ∧
    respField (app wEmptyErr reqDb) "message" = some (.str "") :=
  ⟨rfl, rfl, rfl⟩

/-- C4, amended: when the connection attempt or either count query fails,
`GET /db-test` answers 500 with `error: "Database connection failed"` and a
`message` equal to the thrown `Error` instance's message (possibly empty),
or `"Unknown error"` when the thrown value is not an `Error`; in
particular the `message` is non-empty whenever the thrown `Error`'s
message is non-empty. -/
theorem c4_dbtest_failure (w : World) (req : Req) (e : JsThrow)
    (hm : req.method = "GET") (hp : req.path = "/db-test") (hpe : req.parseError = none)
    (he : dbRun w.db = .error e) :
    app w req = ⟨500, .json (.obj [("error", .str "Database connection failed"),
      ("message", .str (dbErrMessage e))])⟩ ∧
    (∀ msg, e = .errorInstance msg → msg ≠ "" → dbErrMessage e ≠ "") ∧
    (∀ payload, e = .nonError payload → dbErrMessage e = "Unknown error") := by
  obtain ⟨mt, p, pe⟩ := req
  subst hm; subst hp; subst hpe
  refine ⟨?_, ?_, ?_⟩
  · show dbTestResp w = _
    unfold dbTestResp
    rw [he]
  · intro msg he2 hne
    rw [he2]
    exact hne
  · intro payload he2
    rw [he2]
    rfl

theorem c4_dbtest_failure_witness :
    reqDb.method = "GET" ∧ reqDb.path = "/db-test" ∧ reqDb.parseError = none ∧
    dbRun wEmptyErr.db = .error (.errorInstance "") ∧
    app wEmptyErr reqDb = ⟨500, .json (.obj [("error", .str "Database connection failed"),
      ("message", .str (dbErrMessage (.errorInstance "")))])⟩ :=
  ⟨rfl, rfl, rfl, rfl,
   (c4_dbtest_failure wEmptyErr reqDb (.errorInstance "") rfl rfl rfl rfl).1⟩

/-- C5: every exception reaching the global error handler (in this
application, a body-parse failure raised by the middleware; the only
asynchronous handler catches its own exceptions) yields status 500 with
body `{error: "Internal Server Error", message}` carrying the exception's
message, with no distinction between exception kinds. -/
theorem c5_global_error_handler (w : World) (req : Req) (e : JsError)
    (hpe : req.parseError = some e) :
    app w req = ⟨500, .json (.obj [("error", .str "Internal Server Error"),
      ("message", .str e.message)])⟩ := by
  unfold app
  rw [hpe]
  rfl

theorem c5_global_error_handler_witness :
    reqBadBody.parseError = some ⟨"Unexpected token < in JSON at position 0"⟩ ∧
    app w0 reqBadBody = ⟨500, .json (.obj [("error", .str "Internal Server Error"),
      ("message", .str "Unexpected token < in JSON at position 0")])⟩ :=
  ⟨rfl, c5_global_error_handler w0 reqBadBody ⟨"Unexpected token < in JSON at position 0"⟩ rfl⟩

/-- C6: `GET /info` answers 200 with the info body, whose
`memoryUsage.rss` and `memoryUsage.heapUsed` are the decimal rendering of
the byte counts divided by 1024*1024 and rounded, followed by `" MB"`:
strings ending in `" MB"` whose prefixes are non-empty digit strings. -/
theorem c6_info_memory (w : World) (req : Req)
    (hm : req.method = "GET") (hp : req.path = "/info") (hpe : req.parseError = none) :
    app w req = ⟨200, .json (infoBody w)⟩ ∧
    memField (app w req) "rss" = some (.str (mbString w.rssBytes)) ∧
    memField (app w req) "heapUsed" = some (.str (mbString w.heapUsedBytes)) ∧
    (∀ b : Nat, (mbString b).data = natDec (roundMB b) ++ [' ', 'M', 'B'] ∧
      natDec (roundMB b) ≠ [] ∧ ∀ c ∈ natDec (roundMB b), c.isDigit = true) := by
  obtain ⟨m, p, pe⟩ := req
  subst hm; subst hp; subst hpe
  exact ⟨rfl, rfl, rfl, fun b => ⟨rfl, natDec_ne_nil _, natDec_digits _⟩⟩

theorem c6_info_memory_witness :
    reqInfo.method = "GET" ∧ reqInfo.path = "/info" ∧ reqInfo.parseError = none ∧
    (app w0 reqInfo = ⟨200, .json (infoBody w0)⟩ ∧
     memField (app w0 reqInfo) "rss" = some (.str (mbString w0.rssBytes)) ∧
     memField (app w0 reqInfo) "heapUsed" = some (.str (mbString w0.heapUsedBytes)) ∧
     (∀ b : Nat, (mbString b).data = natDec (roundMB b) ++ [' ', 'M', 'B'] ∧
       natDec (roundMB b) ≠ [] ∧ ∀ c ∈ natDec (roundMB b), c.isDigit = true)) :=
  ⟨rfl, rfl, rfl, c6_info_memory w0 reqInfo rfl rfl rfl⟩

/-- C7: repeating any request against unchanged server and database state
(same world up to the clock and the uptime counter) yields structurally
identical responses apart from the `timestamp` and `uptime` fields; in
particular the status and every other body field, including
`memoryUsage.rss` and `memoryUsage.heapUsed` of `GET /info`, coincide. -/
theorem c7_get_idempotent (w : World) (t : Nat) (u : ℚ) (req : Req) :
    scrubResp (app { w with nowMs := t, uptimeSec := u } req) = scrubResp (app w req) := by
  obtain ⟨m, p, pe⟩ := req
  cases pe with
  | some e => rfl
  | none =>
    show scrubResp (routeReq { w with nowMs := t, uptimeSec := u } ⟨m, p, none⟩) =
      scrubResp (routeReq w ⟨m, p, none⟩)
    unfold routeReq
    split_ifs with h1 h2 h3 h4 h5
    · show scrubResp swaggerUiResp = scrubResp swaggerUiResp
      rfl
    · show scrubResp ⟨200, Body.json swaggerSpec⟩ = scrubResp ⟨200, Body.json swaggerSpec⟩
      rfl
    · show scrubResp ⟨200, Body.json (healthBody { w with nowMs := t, uptimeSec := u })⟩ =
        scrubResp ⟨200, Body.json (healthBody w)⟩
      rw [scrub_health, scrub_health]
      rfl
    · show scrubResp ⟨200, Body.json (infoBody { w with nowMs := t, uptimeSec := u })⟩ =
        scrubResp ⟨200, Body.json (infoBody w)⟩
      rw [scrub_info, scrub_info]
    · show scrubResp (dbTestResp { w with nowMs := t, uptimeSec := u }) =
        scrubResp (dbTestResp w)
      cases hrun : dbRun w.db with
      | ok pr =>
        obtain ⟨a, b⟩ := pr
        rw [scrub_db_ok { w with nowMs := t, uptimeSec := u } a b
            (show dbRun ({ w with nowMs := t, uptimeSec := u } : World).db = .ok (a, b) from hrun),
          scrub_db_ok w a b hrun]
      | error e =>
        rw [scrub_db_err { w with nowMs := t, uptimeSec := u } e
            (show dbRun ({ w with nowMs := t, uptimeSec := u } : World).db = .error e from hrun),
          scrub_db_err w e hrun]
    · rfl

/-- C8: `GET /api-docs.json` answers 200 with the generated OpenAPI
document, whose `info.version` is the configured `"1.0.0"` and whose
documented paths include `/`, `/info` and `/db-test`. -/
theorem c8_apidocs_spec (w : World) (req : Req)
    (hm : req.method = "GET") (hp : req.path = "/api-docs.json") (hpe : req.parseError = none) :
    app w req = ⟨200, .json swaggerSpec⟩ ∧
    (jsonField swaggerSpec "info").bind (fun j => jsonField j "version") =
      some (.str "1.0.0") ∧
    "/" ∈ specPaths swaggerSpec ∧ "/info" ∈ specPaths swaggerSpec ∧
    "/db-test" ∈ specPaths swaggerSpec := by
  obtain ⟨m, p, pe⟩ := req
  subst hm; subst hp; subst hpe
  exact ⟨rfl, rfl, by decide, by decide, by decide⟩

theorem c8_apidocs_spec_witness :
    reqDocs.method = "GET" ∧ reqDocs.path = "/api-docs.json" ∧ reqDocs.parseError = none ∧
    (app w0 reqDocs = ⟨200, .json swaggerSpec⟩ ∧
     (jsonField swaggerSpec "info").bind (fun j => jsonField j "version") =
       some (.str "1.0.0") ∧
     "/" ∈ specPaths swaggerSpec ∧ "/info" ∈ specPaths swaggerSpec ∧
     "/db-test" ∈ specPaths swaggerSpec) :=
  ⟨rfl, rfl, rfl, c8_apidocs_spec w0 reqDocs rfl rfl rfl⟩

/-- C9: every response has status 200, 404 or 500 with the matching body
shape (success bodies carry no `error` tag, 404 carries the not-found
error, 500 one of the two internal-error shapes), and every `timestamp`
field of a response body is the ISO 8601 rendering of the request time,
which is valid ISO 8601. -/
theorem c9_status_semantics (w : World) (req : Req)
    (hms : w.nowMs < 253402300800000) :
    statusMatches (app w req) ∧
    (∀ j ∈ timestampsOf (app w req), j = .str (toISOString w.nowMs)) ∧
    isValidISO8601Z (toISOString w.nowMs) = true := by
  have hmain : statusMatches (app w req) ∧
      (∀ j ∈ timestampsOf (app w req), j = .str (toISOString w.nowMs)) := by
    obtain ⟨m, p, pe⟩ := req
    cases pe with
    | some e =>
      refine ⟨Or.inr (Or.inr ⟨rfl, Or.inl rfl⟩), ?_⟩
      intro j hj
      exact absurd hj (List.not_mem_nil j)
    | none =>
      show statusMatches (routeReq w ⟨m, p, none⟩) ∧
        (∀ j ∈ timestampsOf (routeReq w ⟨m, p, none⟩), j = .str (toISOString w.nowMs))
      unfold routeReq
      split_ifs with h1 h2 h3 h4 h5
      · exact ⟨Or.inl ⟨rfl, rfl⟩, fun j hj => absurd hj (List.not_mem_nil j)⟩
      · exact ⟨Or.inl ⟨rfl, rfl⟩, fun j hj => absurd hj (List.not_mem_nil j)⟩
      · refine ⟨Or.inl ⟨rfl, rfl⟩, ?_⟩
        intro j hj
        have hj1 : j ∈ [Json.str (toISOString w.nowMs)] := hj
        simpa using hj1
      · exact ⟨Or.inl ⟨rfl, rfl⟩, fun j hj => absurd hj (List.not_mem_nil j)⟩
      · show statusMatches (dbTestResp w) ∧
          (∀ j ∈ timestampsOf (dbTestResp w), j = .str (toISOString w.nowMs))
        unfold dbTestResp
        cases hrun : dbRun w.db with
        | ok pr =>
          obtain ⟨a, b⟩ := pr
          refine ⟨Or.inl ⟨rfl, rfl⟩, ?_⟩
          intro j hj
          have hj1 : j ∈ [Json.str (toISOString w.nowMs)] := hj
          simpa using hj1
        | error e =>
          exact ⟨Or.inr (Or.inr ⟨rfl, Or.inr rfl⟩),
            fun j hj => absurd hj (List.not_mem_nil j)⟩
      · exact ⟨Or.inr (Or.inl ⟨rfl, rfl⟩), fun j hj => absurd hj (List.not_mem_nil j)⟩
  exact ⟨hmain.1, hmain.2, toISOString_valid _ hms⟩

theorem c9_status_semantics_witness :
    w0.nowMs < 253402300800000 ∧
    (statusMatches (app w0 reqRoot) ∧
     (∀ j ∈ timestampsOf (app w0 reqRoot), j = .str (toISOString w0.nowMs)) ∧
     isValidISO8601Z (toISOString w0.nowMs) = true) :=
  ⟨by decide, c9_status_semantics w0 reqRoot (by decide)⟩

/-- C10: when the `/db-test` database sequence throws a value that is not
an `Error` instance, the 500 response's `message` is exactly
`"Unknown error"` and the response is a constant independent of the thrown
payload, which therefore never appears in it. -/
theorem c10_nonerror_unknown (w : World) (req : Req) (payload : String)
    (hm : req.method = "GET") (hp : req.path = "/db-test") (hpe : req.parseError = none)
    (he : dbRun w.db = .error (.nonError payload)) :
    app w req = ⟨500, .json (.obj [("error", .str "Database connection failed"),
      ("message", .str "Unknown error")])⟩ := by
  obtain ⟨mt, p, pe⟩ := req
  subst hm; subst hp; subst hpe
  show dbTestResp w = _
  unfold dbTestResp
  rw [he]
  rfl

theorem c10_nonerror_unknown_witness :
    reqDb.method = "GET" ∧ reqDb.path = "/db-test" ∧ reqDb.parseError = none ∧
    dbRun wNonErr.db = .error (.nonError "weird throw") ∧
    app wNonErr reqDb = ⟨500, .json (.obj [("error", .str "Database connection failed"),
      ("message", .str "Unknown error")])⟩ :=
  ⟨rfl, rfl, rfl, rfl,
   c10_nonerror_unknown wNonErr reqDb "weird throw" rfl rfl rfl rfl⟩

end Backend
